import Mathlib

/-!
Shallow embedding of the actix-cors forwarding proxy (src/src/main.rs).

The program is a single-endpoint HTTP proxy: `GET /URL` forwards a GET
request to `URL` and relays the response with a wildcard CORS header.
The pipeline (`proxy`) chains `is_get_method`, `parse_uri` and
`proxy_request`; errors are the closed `ProxyError` taxonomy rendered via
its `Display` and `ResponseError` implementations.

Library behaviour that the source delegates to (the `http` crate's URI
parser and the `awc` client's transport) is abstracted as explicit
function parameters (`parse`, `send`), so theorems quantify over every
possible behaviour of those libraries.  Header names in the `http` crate's
`HeaderMap` compare case-insensitively (names are ASCII-lowercased on
entry), which the embedding reflects by lowercasing names before
comparison against the blocklist literals.
-/

namespace ActixCors

/-- `const USAGE: &str = "Usage: GET /URL\n";` (main.rs line 7). -/
def USAGE : String := "Usage: GET /URL\n"

/-- Projection of the `http` crate's parsed `Uri` used by the source:
`scheme_str()` and `host()` are the only accessors consulted; `rest`
stands for every other component (path, query, …) passed through
verbatim. -/
structure Uri where
  scheme : Option String
  host : Option String
  rest : String
deriving DecidableEq, Repr

/-- The inbound request as seen by the handlers: `req.method()` and
`req.path()` are the only accessors the source consults. -/
structure Request where
  method : String
  path : String
deriving DecidableEq, Repr

/-- `enum ProxyError` (main.rs lines 93-99). -/
inductive ProxyError where
  | methodNotSupported
  | unableToParseUri
  | requestError (detail : String)
  | internalServerError
deriving DecidableEq, Repr

/-- Modelled from the spec: the outbound client's transport error type
(`awc::error::SendRequestError`, not in src/).  The source matches only
the `Url` and `Connect` variants (each carrying a stringified cause) and
collapses every other failure class, modelled by `other`. -/
inductive SendRequestError where
  | url (cause : String)
  | connect (cause : String)
  | other (kind : String)
deriving DecidableEq, Repr

/-- The upstream response as consumed by the source: `status()` and the
`headers()` name/value entries (iterated in order, duplicates kept).
The body is a stream handed through untouched, so it carries no data
relevant to the embedded logic. -/
structure UpstreamResponse where
  status : Nat
  headers : List (String × String)
deriving DecidableEq, Repr

/-- Response bodies: a concrete text body (usage/error pages) or the
streamed upstream body. -/
inductive Body where
  | text (s : String)
  | stream
deriving DecidableEq, Repr

/-- The outbound `HttpResponse`: status, header list (order and
multiplicity preserved, as `HttpResponseBuilder::header` appends), and
body. -/
structure HttpResponse where
  status : Nat
  headers : List (String × String)
  body : Body
deriving DecidableEq, Repr

/-- `fn is_get_method` (main.rs lines 38-44): pass the request through
when its method is GET, otherwise fail with `MethodNotSupported`. -/
def is_get_method (req : Request) : Except ProxyError Request :=
  if req.method = "GET" then .ok req else .error .methodNotSupported

/-- `fn is_valid_scheme` (main.rs lines 57-63): only the exact literals
`"https"` and `"http"`. -/
def is_valid_scheme (scheme : Option String) : Bool :=
  match scheme with
  | some scheme => scheme == "https" || scheme == "http"
  | none => false

/-- `fn parse_uri` (main.rs lines 46-55), over an abstract URI parser
`parse` standing for `str::parse::<Uri>` of the `http` crate
(`parse s = none` models a parse error).  Empty path fails; otherwise
the path minus its first character is parsed, and the result is accepted
only with a host present and a valid scheme. -/
def parse_uri (parse : String → Option Uri) (req : Request) :
    Except ProxyError Uri :=
  if req.path.isEmpty then
    .error .unableToParseUri
  else
    match parse (req.path.drop 1) with
    | some parsed =>
        if parsed.host.isSome && is_valid_scheme parsed.scheme then
          .ok parsed
        else
          .error .unableToParseUri
    | none => .error .unableToParseUri

/-- The `map_err` closure of `fn proxy_request` (main.rs lines 73-77):
`Url` and `Connect` failures become `RequestError` carrying the
stringified cause, everything else `InternalServerError`. -/
def map_send_error (err : SendRequestError) : ProxyError :=
  match err with
  | .url cause => .requestError cause
  | .connect cause => .requestError cause
  | .other _ => .internalServerError

/-- ASCII lowercasing of a header name, modelling the `http` crate's
case-insensitive `HeaderName` comparison (header names are
ASCII-lowercased on entry into a `HeaderMap`). -/
def lowerName (s : String) : String :=
  ⟨s.data.map Char.toLower⟩

/-- The header filter of `fn proxy_request` (main.rs lines 80-84):
keep a header unless its name is `connection`,
`access-control-allow-origin` or `content-length`.  `HeaderName`
comparison in the `http` crate is case-insensitive, modelled by
lowercasing the name. -/
def keep_header (p : String × String) : Bool :=
  lowerName p.1 != "connection"
    && lowerName p.1 != "access-control-allow-origin"
    && lowerName p.1 != "content-length"

/-- `fn proxy_request` (main.rs lines 65-91), over an abstract transport
`send` standing for `client.get(uri).no_decompress().send()`.  On
transport failure the error is mapped by `map_send_error`; on success the
upstream status is copied, the non-blocklisted headers are appended in
order, `access-control-allow-origin: *` is appended last, and the body is
streamed. -/
def proxy_request (send : Uri → Except SendRequestError UpstreamResponse)
    (uri : Uri) : Except ProxyError HttpResponse :=
  match send uri with
  | .error err => .error (map_send_error err)
  | .ok response =>
      .ok { status := response.status
            headers := response.headers.filter keep_header
                         ++ [("access-control-allow-origin", "*")]
            body := .stream }

/-- `fn proxy` (main.rs lines 24-31): the pipeline
`is_get_method` → `parse_uri` → `proxy_request`. -/
def proxy (send : Uri → Except SendRequestError UpstreamResponse)
    (parse : String → Option Uri) (req : Request) :
    Except ProxyError HttpResponse :=
  (is_get_method req).bind fun req =>
    (parse_uri parse req).bind fun uri =>
      proxy_request send uri

/-- `impl fmt::Display for ProxyError` (main.rs lines 101-111). -/
def display (e : ProxyError) : String :=
  match e with
  | .unableToParseUri => "Unable to parse URL\n" ++ USAGE
  | .requestError reason => reason ++ "\n" ++ USAGE
  | _ => USAGE

/-- The status of `impl ResponseError for ProxyError` (main.rs lines
113-123): `MethodNotAllowed` = 405, `BadRequest` = 400,
`InternalServerError` = 500. -/
def error_response_status (e : ProxyError) : Nat :=
  match e with
  | .methodNotSupported => 405
  | .unableToParseUri => 400
  | .requestError _ => 400
  | .internalServerError => 500

/-- Modelled from the spec: actix-web's error rendering (not in src/)
combines the status from `ResponseError::error_response` with the
`Display` output as the plaintext body. -/
def render_error (e : ProxyError) : HttpResponse :=
  { status := error_response_status e
    headers := []
    body := .text (display e) }

/-- The static usage response of `web::resource("/").to(|| USAGE)`
(main.rs line 14): a `&str` responder, status 200. -/
def usage_response : HttpResponse :=
  { status := 200, headers := [], body := .text USAGE }

/-- The `App` routing of `fn main` (main.rs lines 11-16): the exact path
`"/"` is served by the guard-less usage resource (any method); every
other request goes to the `default_service`, the proxy pipeline, whose
error is rendered by `render_error`. -/
def handle (send : Uri → Except SendRequestError UpstreamResponse)
    (parse : String → Option Uri) (req : Request) : HttpResponse :=
  if req.path = "/" then
    usage_response
  else
    match proxy send parse req with
    | .ok response => response
    | .error e => render_error e

/-! Test fixtures used by witness theorems. -/

/-- Test fixture: an upstream response exercising the header blocklist
(mixed-case blocked names) and duplicate headers. -/
def upstream_fix : UpstreamResponse :=
  { status := 203
    headers := [("Content-Type", "text/html"), ("Connection", "keep-alive"),
                ("Access-Control-Allow-Origin", "null"), ("content-length", "42"),
                ("X-Custom", "v"), ("Set-Cookie", "a=1"), ("Set-Cookie", "a=1")] }

/-- Test fixture: a transport that always succeeds with `upstream_fix`. -/
def send_fix : Uri → Except SendRequestError UpstreamResponse :=
  fun _ => .ok upstream_fix

/-- Test fixture: a validated target URL. -/
def uri_fix : Uri :=
  { scheme := some "http", host := some "example.com", rest := "/page" }

/-- Test fixture: the response `proxy_request send_fix uri_fix` produces. -/
def out_fix : HttpResponse :=
  { status := 203
    headers := [("Content-Type", "text/html"), ("X-Custom", "v"),
                ("Set-Cookie", "a=1"), ("Set-Cookie", "a=1"),
                ("access-control-allow-origin", "*")]
    body := .stream }

/-- C3: each `ProxyError` kind renders with a fixed status —
`MethodNotSupported` 405, `UnableToParseUri` 400, `RequestError` 400,
`InternalServerError` 500 — and the body is a message line followed by
the usage string for `UnableToParseUri` and `RequestError`, and the
usage string alone for `MethodNotSupported` and `InternalServerError`. -/
theorem error_rendering :
    (render_error .methodNotSupported).status = 405
    ∧ (render_error .unableToParseUri).status = 400
    ∧ (∀ d, (render_error (.requestError d)).status = 400)
    ∧ (render_error .internalServerError).status = 500
    ∧ (render_error .unableToParseUri).body = .text ("Unable to parse URL\n" ++ USAGE)
    ∧ (∀ d, (render_error (.requestError d)).body = .text (d ++ "\n" ++ USAGE))
    ∧ (render_error .methodNotSupported).body = .text USAGE
    ∧ (render_error .internalServerError).body = .text USAGE :=
  ⟨rfl, rfl, fun _ => rfl, rfl, rfl, fun _ => rfl, rfl, rfl⟩

/-- Instantiation of `error_rendering` at a concrete `RequestError`
detail. -/
theorem error_rendering_witness :
    (render_error (.requestError "Connection refused")).status = 400
    ∧ (render_error (.requestError "Connection refused")).body
        = .text ("Connection refused\n" ++ USAGE) :=
  ⟨error_rendering.2.2.1 "Connection refused",
   error_rendering.2.2.2.2.2.1 "Connection refused"⟩

/-- C6: on transport failure, a URL-construction error or a connection
error is mapped to `RequestError` carrying the stringified underlying
cause, and every other transport failure class to
`InternalServerError`; `proxy_request` propagates exactly this
mapping. -/
theorem send_error_mapping (send : Uri → Except SendRequestError UpstreamResponse)
    (uri : Uri) (m k : String) :
    map_send_error (.url m) = .requestError m
    ∧ map_send_error (.connect m) = .requestError m
    ∧ map_send_error (.other k) = .internalServerError
    ∧ (∀ e, send uri = .error e →
        proxy_request send uri = .error (map_send_error e)) := by
  refine ⟨rfl, rfl, rfl, fun e he => ?_⟩
  unfold proxy_request
  rw [he]

/-- Instantiation of `send_error_mapping` at the three failure
classes. -/
theorem send_error_mapping_witness :
    proxy_request (fun _ => .error (.url "relative URL without a base")) uri_fix
      = .error (.requestError "relative URL without a base")
    ∧ proxy_request (fun _ => .error (.connect "Connection refused")) uri_fix
      = .error (.requestError "Connection refused")
    ∧ proxy_request (fun _ => .error (.other "response timeout")) uri_fix
      = .error .internalServerError :=
  ⟨(send_error_mapping (fun _ => .error (.url "relative URL without a base"))
      uri_fix "x" "y").2.2.2 _ rfl,
   (send_error_mapping (fun _ => .error (.connect "Connection refused"))
      uri_fix "x" "y").2.2.2 _ rfl,
   (send_error_mapping (fun _ => .error (.other "response timeout"))
      uri_fix "x" "y").2.2.2 _ rfl⟩

/-- C7: a GET request for the exact path `/` is answered by the
dedicated usage resource — status 200, body exactly the usage string —
and the answer does not depend on the proxy pipeline's parser or
transport (it is not routed through the pipeline). -/
theorem root_get_usage (send send' : Uri → Except SendRequestError UpstreamResponse)
    (parse parse' : String → Option Uri) :
    (handle send parse { method := "GET", path := "/" }).status = 200
    ∧ (handle send parse { method := "GET", path := "/" }).body = .text "Usage: GET /URL\n"
    ∧ handle send parse { method := "GET", path := "/" }
        = handle send' parse' { method := "GET", path := "/" } :=
  ⟨rfl, rfl, rfl⟩

/-- Instantiation of `root_get_usage` at concrete oracles. -/
theorem root_get_usage_witness :
    (handle send_fix (fun _ => none) { method := "GET", path := "/" }).status = 200
    ∧ (handle send_fix (fun _ => none) { method := "GET", path := "/" }).body
        = .text "Usage: GET /URL\n"
    ∧ handle send_fix (fun _ => none) { method := "GET", path := "/" }
        = handle (fun _ => .error (.other "down")) (fun _ => some uri_fix)
            { method := "GET", path := "/" } :=
  root_get_usage send_fix (fun _ => .error (.other "down"))
    (fun _ => none) (fun _ => some uri_fix)

/-- C8: a request for the exact path `/` is answered by the usage
resource for every method — the root route has no method guard — so a
non-GET request to `/` gets status 200 with the usage body and never
reaches the method gate's 405. -/
theorem root_any_method_usage (send : Uri → Except SendRequestError UpstreamResponse)
    (parse : String → Option Uri) (m : String) :
    handle send parse { method := m, path := "/" } = usage_response
    ∧ (handle send parse { method := m, path := "/" }).status = 200
    ∧ (handle send parse { method := m, path := "/" }).body = .text "Usage: GET /URL\n"
    ∧ (handle send parse { method := m, path := "/" }).status ≠ 405 :=
  ⟨rfl, rfl, rfl, (by decide : (200 : Nat) ≠ 405)⟩

/-- Instantiation of `root_any_method_usage` at a non-GET method. -/
theorem root_any_method_usage_witness :
    handle send_fix (fun _ => none) { method := "DELETE", path := "/" } = usage_response
    ∧ (handle send_fix (fun _ => none) { method := "DELETE", path := "/" }).status = 200
    ∧ (handle send_fix (fun _ => none) { method := "DELETE", path := "/" }).body
        = .text "Usage: GET /URL\n"
    ∧ (handle send_fix (fun _ => none) { method := "DELETE", path := "/" }).status ≠ 405 :=
  root_any_method_usage send_fix (fun _ => none) "DELETE"

/-- C10: the URL extractor is total — for every parser behaviour and
every request it either returns a URL produced by the parser or fails
with `UnableToParseUri`; no other outcome exists (the slice of the path
is modelled by `String.drop`, taken only in the non-empty branch). -/
theorem parse_uri_total (parse : String → Option Uri) (req : Request) :
    (∃ u, parse_uri parse req = .ok u ∧ parse (req.path.drop 1) = some u)
    ∨ parse_uri parse req = .error .unableToParseUri := by
  unfold parse_uri
  split
  · exact Or.inr rfl
  · split
    next parsed heq =>
      split
      · exact Or.inl ⟨parsed, rfl, heq⟩
      · exact Or.inr rfl
    next heq => exact Or.inr rfl

/-- Instantiation of `parse_uri_total` at a parser that always fails
and the empty path. -/
theorem parse_uri_total_witness :
    (∃ u, parse_uri (fun _ => none) { method := "GET", path := "" } = .ok u
        ∧ (none : Option Uri) = some u)
    ∨ parse_uri (fun _ => none) { method := "GET", path := "" }
        = .error .unableToParseUri :=
  parse_uri_total (fun _ => none) { method := "GET", path := "" }

/-- C2: the URL extractor fails with `UnableToParseUri` exactly when the
path is empty, or the remainder after the first character does not
parse, or the parsed URL has no host, or its scheme is invalid; in
particular the path `/` (empty remainder) fails, and on success the
returned URL is exactly the parser's output (with host present and a
valid scheme). -/
theorem parse_uri_cases (parse : String → Option Uri)
    (hempty : parse "" = none) (req : Request) :
    (parse_uri parse req = .error .unableToParseUri ↔
      (req.path = ""
        ∨ parse (req.path.drop 1) = none
        ∨ ∃ u, parse (req.path.drop 1) = some u
            ∧ (u.host = none ∨ is_valid_scheme u.scheme = false)))
    ∧ (∀ u, parse_uri parse req = .ok u →
        parse (req.path.drop 1) = some u
          ∧ u.host ≠ none ∧ is_valid_scheme u.scheme = true)
    ∧ (req.path = "/" → parse_uri parse req = .error .unableToParseUri) := by
  refine ⟨⟨?_, ?_⟩, ?_, ?_⟩
  · intro herr
    unfold parse_uri at herr
    split at herr
    next hemp => exact Or.inl ((String.isEmpty_iff _).mp hemp)
    next hemp =>
      split at herr
      next parsed heq =>
        split at herr
        next hc => cases herr
        next hc =>
          refine Or.inr (Or.inr ⟨parsed, heq, ?_⟩)
          rcases Bool.eq_false_or_eq_true parsed.host.isSome with h1 | h1
          · rcases Bool.eq_false_or_eq_true (is_valid_scheme parsed.scheme) with h2 | h2
            · exact absurd (by rw [h1, h2]; rfl) hc
            · exact Or.inr h2
          · exact Or.inl (Option.not_isSome_iff_eq_none.mp (by simp [h1]))
      next heq => exact Or.inr (Or.inl heq)
  · intro h
    unfold parse_uri
    rcases h with h | h | ⟨u, hu, hbad⟩
    · rw [if_pos ((String.isEmpty_iff req.path).mpr h)]
    · split
      · rfl
      · rw [h]
    · split
      · rfl
      · rw [hu]
        have hfalse : (u.host.isSome && is_valid_scheme u.scheme) = false := by
          rcases hbad with h | h <;> simp [h]
        simp [hfalse]
  · intro u hok
    unfold parse_uri at hok
    split at hok
    next => cases hok
    next =>
      split at hok
      next parsed heq =>
        split at hok
        next hc =>
          cases hok
          rw [Bool.and_eq_true] at hc
          exact ⟨heq, Option.ne_none_iff_isSome.mpr hc.1, hc.2⟩
        next hc => cases hok
      next heq => cases hok
  · intro h
    unfold parse_uri
    rw [h, show ("/" : String).drop 1 = "" by decide, hempty]
    rfl

/-- Instantiation of `parse_uri_cases` at a parser that rejects every
string and the path `/`. -/
theorem parse_uri_cases_witness :
    parse_uri (fun _ => none) { method := "GET", path := "/" }
      = .error .unableToParseUri :=
  (parse_uri_cases (fun _ => none) rfl { method := "GET", path := "/" }).2.2 rfl

/-- C5: the scheme check accepts exactly the lowercase literals `http`
and `https` (no normalization), so any request whose remainder parses
with a non-lowercase or foreign scheme fails with `UnableToParseUri`
and is answered with status 400. -/
theorem scheme_case_sensitive :
    (∀ s, is_valid_scheme (some s) = true ↔ (s = "http" ∨ s = "https"))
    ∧ is_valid_scheme none = false
    ∧ (∀ (send : Uri → Except SendRequestError UpstreamResponse)
        (parse : String → Option Uri) (req : Request) (u : Uri),
        req.method = "GET" → req.path ≠ "/" →
        parse (req.path.drop 1) = some u →
        u.scheme ≠ some "http" → u.scheme ≠ some "https" →
        parse_uri parse req = .error .unableToParseUri
          ∧ (handle send parse req).status = 400) := by
  refine ⟨?_, rfl, ?_⟩
  · intro s
    simp only [is_valid_scheme, Bool.or_eq_true, beq_iff_eq]
    exact or_comm
  · intro send parse req u hm hp hu h1 h2
    have hscheme : is_valid_scheme u.scheme = false := by
      cases hs : u.scheme with
      | none => rfl
      | some s =>
        have hs1 : s ≠ "http" := fun h => h1 (by rw [hs, h])
        have hs2 : s ≠ "https" := fun h => h2 (by rw [hs, h])
        simp [is_valid_scheme, hs1, hs2]
    have herr : parse_uri parse req = .error .unableToParseUri := by
      unfold parse_uri
      split
      · rfl
      · rw [hu]
        simp [hscheme]
    refine ⟨herr, ?_⟩
    have hhandle : handle send parse req = render_error .unableToParseUri := by
      unfold handle proxy
      rw [if_neg hp]
      simp [is_get_method, hm, herr, Except.bind]
    rw [hhandle]
    rfl

/-- Instantiation of `scheme_case_sensitive` at the path `/HTTP://x`
whose remainder parses with the non-lowercase scheme `HTTP`. -/
theorem scheme_case_sensitive_witness :
    parse_uri
        (fun s => if s = "HTTP://x" then some ⟨some "HTTP", some "x", ""⟩ else none)
        { method := "GET", path := "/HTTP://x" }
      = .error .unableToParseUri
    ∧ (handle (fun _ => .error (.other "unused"))
        (fun s => if s = "HTTP://x" then some ⟨some "HTTP", some "x", ""⟩ else none)
        { method := "GET", path := "/HTTP://x" }).status = 400 :=
  scheme_case_sensitive.2.2 (fun _ => .error (.other "unused"))
    (fun s => if s = "HTTP://x" then some ⟨some "HTTP", some "x", ""⟩ else none)
    { method := "GET", path := "/HTTP://x" } ⟨some "HTTP", some "x", ""⟩
    rfl (by decide) (by decide) (by decide) (by decide)

/-- Counterexample to C4 as stated: a POST request for the exact path
`/` is answered by the guard-less usage route with status 200, not
405. -/
theorem non_get_root_not_405 :
    (handle (fun _ => .error (.other "e")) (fun _ => none)
        { method := "POST", path := "/" }).status = 200
    ∧ (handle (fun _ => .error (.other "e")) (fun _ => none)
        { method := "POST", path := "/" }).status ≠ 405 :=
  ⟨rfl, (by decide : (200 : Nat) ≠ 405)⟩

/-- C4 (amended): for every inbound request whose method is not GET and
whose path is not exactly `/`, the response has status 405 and body
exactly the usage string. -/
theorem non_get_non_root_405
    (send : Uri → Except SendRequestError UpstreamResponse)
    (parse : String → Option Uri) (req : Request)
    (hm : req.method ≠ "GET") (hp : req.path ≠ "/") :
    (handle send parse req).status = 405
    ∧ (handle send parse req).body = .text "Usage: GET /URL\n" := by
  have hpipe : proxy send parse req = .error .methodNotSupported := by
    unfold proxy is_get_method
    rw [if_neg hm]
    rfl
  unfold handle
  rw [if_neg hp, hpipe]
  exact ⟨rfl, rfl⟩

/-- Instantiation of `non_get_non_root_405` at a POST request for a
proxied path. -/
theorem non_get_non_root_405_witness :
    (handle send_fix (fun _ => none)
        { method := "POST", path := "/https://example.com" }).status = 405
    ∧ (handle send_fix (fun _ => none)
        { method := "POST", path := "/https://example.com" }).body
        = .text "Usage: GET /URL\n" :=
  non_get_non_root_405 send_fix (fun _ => none)
    { method := "POST", path := "/https://example.com" } (by decide) (by decide)

/-- C1: on a successful upstream response, the outbound response keeps
the upstream status; every upstream header whose name is not
(case-insensitively) `connection`, `access-control-allow-origin` or
`content-length` is copied unchanged; no header named `connection` or
`content-length` (any case) appears; and `access-control-allow-origin`
is present with value `*` — and only with value `*` — regardless of
what upstream sent. -/
theorem proxy_response_translation
    (send : Uri → Except SendRequestError UpstreamResponse) (uri : Uri)
    (resp : UpstreamResponse) (out : HttpResponse)
    (hsend : send uri = .ok resp) (hout : proxy_request send uri = .ok out) :
    out.status = resp.status
    ∧ (∀ p ∈ resp.headers,
        lowerName p.1 ≠ "connection" →
        lowerName p.1 ≠ "access-control-allow-origin" →
        lowerName p.1 ≠ "content-length" → p ∈ out.headers)
    ∧ (∀ p ∈ out.headers,
        lowerName p.1 ≠ "connection" ∧ lowerName p.1 ≠ "content-length")
    ∧ ("access-control-allow-origin", "*") ∈ out.headers
    ∧ (∀ p ∈ out.headers,
        lowerName p.1 = "access-control-allow-origin" → p.2 = "*") := by
  have hout' : out
      = { status := resp.status
          headers := resp.headers.filter keep_header
            ++ [("access-control-allow-origin", "*")]
          body := .stream } := by
    unfold proxy_request at hout
    rw [hsend] at hout
    exact (Except.ok.inj hout).symm
  subst hout'
  refine ⟨rfl, ?_, ?_, ?_, ?_⟩
  · intro p hp h1 h2 h3
    apply List.mem_append_left
    rw [List.mem_filter]
    exact ⟨hp, by simp [keep_header, h1, h2, h3]⟩
  · intro p hp
    rcases List.mem_append.mp hp with h | h
    · have hk := (List.mem_filter.mp h).2
      simp only [keep_header, Bool.and_eq_true, bne_iff_ne, ne_eq] at hk
      exact ⟨hk.1.1, hk.2⟩
    · have hps : p = ("access-control-allow-origin", "*") := by simpa using h
      rw [hps]
      exact ⟨by decide, by decide⟩
  · exact List.mem_append_right _ (List.mem_singleton.mpr rfl)
  · intro p hp hacao
    rcases List.mem_append.mp hp with h | h
    · have hk := (List.mem_filter.mp h).2
      simp only [keep_header, Bool.and_eq_true, bne_iff_ne, ne_eq] at hk
      exact absurd hacao hk.1.2
    · have hps : p = ("access-control-allow-origin", "*") := by simpa using h
      rw [hps]

/-- Instantiation of `proxy_response_translation` at `upstream_fix`:
the status survives, a custom header is copied, and the CORS header is
present. -/
theorem proxy_response_translation_witness :
    out_fix.status = 203
    ∧ ("X-Custom", "v") ∈ out_fix.headers
    ∧ ("access-control-allow-origin", "*") ∈ out_fix.headers :=
  ⟨(proxy_response_translation send_fix uri_fix upstream_fix out_fix rfl
      rfl).1,
   (proxy_response_translation send_fix uri_fix upstream_fix out_fix rfl
      rfl).2.1 ("X-Custom", "v") (by decide) (by decide) (by decide)
      (by decide),
   (proxy_response_translation send_fix uri_fix upstream_fix out_fix rfl
      rfl).2.2.2.1⟩

/-- C9: the response translator copies every occurrence of every
non-blocklisted upstream header — a name/value pair passing the filter
appears in the forwarded response exactly as many times as upstream
sent it. -/
theorem header_multiplicity_preserved
    (send : Uri → Except SendRequestError UpstreamResponse) (uri : Uri)
    (resp : UpstreamResponse) (out : HttpResponse)
    (hsend : send uri = .ok resp) (hout : proxy_request send uri = .ok out)
    (p : String × String) (hkeep : keep_header p = true) :
    out.headers.count p = resp.headers.count p := by
  have hout' : out
      = { status := resp.status
          headers := resp.headers.filter keep_header
            ++ [("access-control-allow-origin", "*")]
          body := .stream } := by
    unfold proxy_request at hout
    rw [hsend] at hout
    exact (Except.ok.inj hout).symm
  subst hout'
  show (resp.headers.filter keep_header
      ++ [("access-control-allow-origin", "*")]).count p
    = resp.headers.count p
  rw [List.count_append, List.count_filter hkeep]
  have h0 : [(("access-control-allow-origin", "*") : String × String)].count p
      = 0 := by
    rw [List.count_eq_zero]
    intro hmem
    rw [show p = ("access-control-allow-origin", "*") by simpa using hmem]
      at hkeep
    exact absurd hkeep (by decide)
  rw [h0]
  exact Nat.add_zero _

/-- Instantiation of `header_multiplicity_preserved` at the duplicated
`Set-Cookie` header of `upstream_fix`. -/
theorem header_multiplicity_preserved_witness :
    out_fix.headers.count ("Set-Cookie", "a=1")
      = upstream_fix.headers.count ("Set-Cookie", "a=1")
    ∧ upstream_fix.headers.count ("Set-Cookie", "a=1") = 2 :=
  ⟨header_multiplicity_preserved send_fix uri_fix upstream_fix out_fix rfl
      rfl ("Set-Cookie", "a=1") (by decide),
   by decide⟩

end ActixCors
